import Mathlib

/-!
# gmacs plugin SDK: shallow embedding and verified properties

The Go package `pluginsdk` (files `interfaces.go`, `rpc.go`, `helpers.go`) is
embedded as follows.

* A Go `string` that is only stored and compared is a Lean `String`; the
  content of a `BufferStub`, which is indexed and sliced by byte, is a list of
  bytes.
* A Go `error` is `Option String`: `none` is the nil error.
* A Go slice is `Option (List α)`: `none` is the nil slice.
* A Go interface value that may be nil is an `Option`.
* A method with a pointer receiver takes the receiver's state and returns the
  new state next to its result.
* A slice expression that would panic returns `none`.
* The `*rpc.Client` an RPCClient holds is a parameter. Three channels are
  given for it: `loopback`, which delivers replies unchanged; `gobChannel`,
  which delivers them as net/rpc with the gob encoding does; and
  `brokenChannel`, on which every call fails.
-/

namespace pluginsdk

/-! ## Go values -/

/-- Go `error`: `none` is nil, `some msg` is an error value. -/
abbrev GoError := Option String

/-- Go slice: `none` is the nil slice, `some xs` a non-nil slice. -/
abbrev Slice (α : Type) := Option (List α)

/-- Go `append(s, x)`. -/
def Slice.append {α : Type} : Slice α → α → Slice α
  | none, x => some [x]
  | some xs, x => some (xs ++ [x])

/-- Go `interface{}` values, as far as the stubs receive them. -/
inductive Iface where
  | nil
  | str (s : String)
  | int (i : Int)
  | bool (b : Bool)
  deriving DecidableEq, Repr

/-- Go `context.Context`: `context.Background()` or a context made by a caller. -/
inductive Context where
  | background
  | custom (id : Nat)
  deriving DecidableEq, Repr

/-! ## interfaces.go: specs -/

/-- KeyBindingSpec of interfaces.go. -/
structure KeyBindingSpec where
  Sequence : String
  Command : String
  Mode : String
  deriving DecidableEq, Repr

/-- CommandSpec of interfaces.go. -/
structure CommandSpec where
  Name : String
  Description : String
  Interactive : Bool
  Handler : String
  ArgPrompts : Slice String
  deriving DecidableEq, Repr

/-- MajorModeSpec of interfaces.go. -/
structure MajorModeSpec where
  Name : String
  Extensions : Slice String
  Description : String
  KeyBindings : Slice KeyBindingSpec
  deriving DecidableEq, Repr

/-- MinorModeSpec of interfaces.go. -/
structure MinorModeSpec where
  Name : String
  Description : String
  Global : Bool
  KeyBindings : Slice KeyBindingSpec
  deriving DecidableEq, Repr

/-- A bound (non-nil) value of the Go interface `HostInterface`: a reference to
some host object, identified by `handle`. -/
structure HostRef where
  handle : Nat
  deriving DecidableEq, Repr

/-- A value of the Go interface type `HostInterface`: nil or a bound reference. -/
abbrev HostInterface := Option HostRef

/-- The Go interface `Plugin`: the method table of an implementation whose
receiver state has type `σ`. Every method may read and change that state. -/
structure Plugin (σ : Type) where
  Name : σ → String × σ
  Version : σ → String × σ
  Description : σ → String × σ
  Initialize : Context → HostInterface → σ → GoError × σ
  Cleanup : σ → GoError × σ
  GetCommands : σ → Slice CommandSpec × σ
  GetMajorModes : σ → Slice MajorModeSpec × σ
  GetMinorModes : σ → Slice MinorModeSpec × σ
  GetKeyBindings : σ → Slice KeyBindingSpec × σ

/-! ## rpc.go: the channel -/

/-- The static types of the reply variables `resp` used in rpc.go. -/
inductive ReplyTy where
  | string
  | error
  | commands
  | majorModes
  | minorModes
  | keyBindings
  deriving DecidableEq, Repr

/-- The Go type a reply variable has. -/
def ReplyTy.denote : ReplyTy → Type
  | .string => String
  | .error => GoError
  | .commands => Slice CommandSpec
  | .majorModes => Slice MajorModeSpec
  | .minorModes => Slice MinorModeSpec
  | .keyBindings => Slice KeyBindingSpec

/-- The Go zero value of a reply variable (`var resp T`). -/
def ReplyTy.zero : (t : ReplyTy) → t.denote
  | .string => ""
  | .error => none
  | .commands => none
  | .majorModes => none
  | .minorModes => none
  | .keyBindings => none

/-- The two argument values rpc.go sends: `new(interface{})` and
`map[string]interface{}{}`. -/
inductive Args where
  | newIface
  | emptyMap
  deriving DecidableEq, Repr

/-- The `*rpc.Client` of net/rpc, which is outside the repository: `Call name
args reply` takes the current value of the reply variable and the state `κ`
behind the channel, and gives the returned error, the value left in the reply
variable, and the new state. -/
structure RpcChannel (κ : Type) where
  Call : String → Args → (t : ReplyTy) → t.denote → κ → (GoError × t.denote) × κ

/-- RPCClient of rpc.go, the host side. -/
structure RPCClient (κ : Type) where
  client : RpcChannel κ

/-- RPCServer of rpc.go, the plugin side; `Impl` is a bound implementation. -/
structure RPCServer (σ : Type) where
  Impl : Plugin σ

/-- RPCPlugin of rpc.go; `Impl` is nil in the host-side `PluginMap`. -/
structure RPCPlugin (σ : Type) where
  Impl : Option (Plugin σ)

/-! ## rpc.go: RPCClient methods -/

/-- RPCClient.Name of rpc.go. -/
def RPCClient.Name {κ : Type} (c : RPCClient κ) (k : κ) : String × κ :=
  let r := c.client.Call "Plugin.Name" Args.newIface ReplyTy.string (ReplyTy.zero .string) k
  if r.1.1 ≠ none then ("", r.2) else (r.1.2, r.2)

/-- RPCClient.Version of rpc.go. -/
def RPCClient.Version {κ : Type} (c : RPCClient κ) (k : κ) : String × κ :=
  let r := c.client.Call "Plugin.Version" Args.newIface ReplyTy.string (ReplyTy.zero .string) k
  if r.1.1 ≠ none then ("", r.2) else (r.1.2, r.2)

/-- RPCClient.Description of rpc.go. -/
def RPCClient.Description {κ : Type} (c : RPCClient κ) (k : κ) : String × κ :=
  let r := c.client.Call "Plugin.Description" Args.newIface ReplyTy.string (ReplyTy.zero .string) k
  if r.1.1 ≠ none then ("", r.2) else (r.1.2, r.2)

/-- RPCClient.Initialize of rpc.go: neither `ctx` nor `host` is sent, and the
reply variable is not read. -/
def RPCClient.Initialize {κ : Type} (c : RPCClient κ) (_ctx : Context) (_host : HostInterface)
    (k : κ) : GoError × κ :=
  let r := c.client.Call "Plugin.Initialize" Args.emptyMap ReplyTy.error (ReplyTy.zero .error) k
  (r.1.1, r.2)

/-- RPCClient.Cleanup of rpc.go: the reply variable is not read. -/
def RPCClient.Cleanup {κ : Type} (c : RPCClient κ) (k : κ) : GoError × κ :=
  let r := c.client.Call "Plugin.Cleanup" Args.newIface ReplyTy.error (ReplyTy.zero .error) k
  (r.1.1, r.2)

/-- RPCClient.GetCommands of rpc.go. -/
def RPCClient.GetCommands {κ : Type} (c : RPCClient κ) (k : κ) : Slice CommandSpec × κ :=
  let r := c.client.Call "Plugin.GetCommands" Args.newIface ReplyTy.commands
    (ReplyTy.zero .commands) k
  if r.1.1 ≠ none then (none, r.2) else (r.1.2, r.2)

/-- RPCClient.GetMajorModes of rpc.go. -/
def RPCClient.GetMajorModes {κ : Type} (c : RPCClient κ) (k : κ) : Slice MajorModeSpec × κ :=
  let r := c.client.Call "Plugin.GetMajorModes" Args.newIface ReplyTy.majorModes
    (ReplyTy.zero .majorModes) k
  if r.1.1 ≠ none then (none, r.2) else (r.1.2, r.2)

/-- RPCClient.GetMinorModes of rpc.go. -/
def RPCClient.GetMinorModes {κ : Type} (c : RPCClient κ) (k : κ) : Slice MinorModeSpec × κ :=
  let r := c.client.Call "Plugin.GetMinorModes" Args.newIface ReplyTy.minorModes
    (ReplyTy.zero .minorModes) k
  if r.1.1 ≠ none then (none, r.2) else (r.1.2, r.2)

/-- RPCClient.GetKeyBindings of rpc.go. -/
def RPCClient.GetKeyBindings {κ : Type} (c : RPCClient κ) (k : κ) : Slice KeyBindingSpec × κ :=
  let r := c.client.Call "Plugin.GetKeyBindings" Args.newIface ReplyTy.keyBindings
    (ReplyTy.zero .keyBindings) k
  if r.1.1 ≠ none then (none, r.2) else (r.1.2, r.2)

/-! ## rpc.go: RPCServer methods

Each handler takes the call arguments, the current value of `*resp` and the
state of the implementation; it gives the returned error, the new `*resp` and
the new state. -/

/-- RPCServer.Name of rpc.go. -/
def RPCServer.Name {σ : Type} (s : RPCServer σ) (_args : Args) (_resp : String) (st : σ) :
    (GoError × String) × σ :=
  let r := s.Impl.Name st
  ((none, r.1), r.2)

/-- RPCServer.Version of rpc.go. -/
def RPCServer.Version {σ : Type} (s : RPCServer σ) (_args : Args) (_resp : String) (st : σ) :
    (GoError × String) × σ :=
  let r := s.Impl.Version st
  ((none, r.1), r.2)

/-- RPCServer.Description of rpc.go. -/
def RPCServer.Description {σ : Type} (s : RPCServer σ) (_args : Args) (_resp : String) (st : σ) :
    (GoError × String) × σ :=
  let r := s.Impl.Description st
  ((none, r.1), r.2)

/-- RPCServer.Initialize of rpc.go: the implementation is called with
`context.Background()` and a nil host. -/
def RPCServer.Initialize {σ : Type} (s : RPCServer σ) (_args : Args) (_resp : GoError) (st : σ) :
    (GoError × GoError) × σ :=
  let r := s.Impl.Initialize Context.background none st
  ((none, r.1), r.2)

/-- RPCServer.Cleanup of rpc.go. -/
def RPCServer.Cleanup {σ : Type} (s : RPCServer σ) (_args : Args) (_resp : GoError) (st : σ) :
    (GoError × GoError) × σ :=
  let r := s.Impl.Cleanup st
  ((none, r.1), r.2)

/-- RPCServer.GetCommands of rpc.go. -/
def RPCServer.GetCommands {σ : Type} (s : RPCServer σ) (_args : Args)
    (_resp : Slice CommandSpec) (st : σ) : (GoError × Slice CommandSpec) × σ :=
  let r := s.Impl.GetCommands st
  ((none, r.1), r.2)

/-- RPCServer.GetMajorModes of rpc.go. -/
def RPCServer.GetMajorModes {σ : Type} (s : RPCServer σ) (_args : Args)
    (_resp : Slice MajorModeSpec) (st : σ) : (GoError × Slice MajorModeSpec) × σ :=
  let r := s.Impl.GetMajorModes st
  ((none, r.1), r.2)

/-- RPCServer.GetMinorModes of rpc.go. -/
def RPCServer.GetMinorModes {σ : Type} (s : RPCServer σ) (_args : Args)
    (_resp : Slice MinorModeSpec) (st : σ) : (GoError × Slice MinorModeSpec) × σ :=
  let r := s.Impl.GetMinorModes st
  ((none, r.1), r.2)

/-- RPCServer.GetKeyBindings of rpc.go. -/
def RPCServer.GetKeyBindings {σ : Type} (s : RPCServer σ) (_args : Args)
    (_resp : Slice KeyBindingSpec) (st : σ) : (GoError × Slice KeyBindingSpec) × σ :=
  let r := s.Impl.GetKeyBindings st
  ((none, r.1), r.2)

/-! ## The method set of RPCServer and a channel that reaches it -/

/-- One exported method of `*RPCServer` as net/rpc registers it: the type of
its reply parameter and the method itself. -/
structure Handler (σ : Type) where
  reply : ReplyTy
  run : RPCServer σ → Args → reply.denote → σ → (GoError × reply.denote) × σ

/-- The methods declared on `*RPCServer` in rpc.go, in source order, under
their Go names. -/
def RPCServer.methods (σ : Type) : List (String × Handler σ) :=
  [ ("Name", ⟨.string, RPCServer.Name⟩),
    ("Version", ⟨.string, RPCServer.Version⟩),
    ("Description", ⟨.string, RPCServer.Description⟩),
    ("Initialize", ⟨.error, RPCServer.Initialize⟩),
    ("Cleanup", ⟨.error, RPCServer.Cleanup⟩),
    ("GetCommands", ⟨.commands, RPCServer.GetCommands⟩),
    ("GetMajorModes", ⟨.majorModes, RPCServer.GetMajorModes⟩),
    ("GetMinorModes", ⟨.minorModes, RPCServer.GetMinorModes⟩),
    ("GetKeyBindings", ⟨.keyBindings, RPCServer.GetKeyBindings⟩) ]

/-- The names of the methods declared on `*RPCServer`. -/
def RPCServer.methodNames : List String :=
  (RPCServer.methods Unit).map Prod.fst

/-- The service name under which go-plugin (outside the repository) registers
the value returned by `RPCPlugin.Server`. -/
def serviceName : String := "Plugin"

/-- Looks a call name `Service.Method` up among the registered methods. -/
def RPCServer.lookup (σ : Type) (serviceMethod : String) : Option (Handler σ) :=
  ((RPCServer.methods σ).find? (fun e => decide (serviceName ++ "." ++ e.1 = serviceMethod))).map
    Prod.snd

/-- A channel that delivers every call intact, for the claims that assume such
a channel or look only at the dispatch by name: the named call is dispatched to
the method of `srv` registered under that name, and the error and reply of the
method come back unchanged. A name that is not registered, or a reply variable
of another type than the method's, gives an error and leaves the reply
variable as it was. -/
def loopback {σ : Type} (srv : RPCServer σ) : RpcChannel σ where
  Call := fun serviceMethod args t reply st =>
    match RPCServer.lookup σ serviceMethod with
    | none => ((some ("rpc: method not found: " ++ serviceMethod), reply), st)
    | some h =>
      if e : h.reply = t then
        let r := h.run srv args (e ▸ reply) st
        ((r.1.1, e ▸ r.1.2), r.2)
      else ((some "rpc: reply type mismatch", reply), st)

/-- A channel on which every call fails, as on a dropped connection; it counts
the calls made. -/
def brokenChannel : RpcChannel Nat where
  Call := fun _ _ _ reply n => ((some "connection is shut down", reply), n + 1)

/-- A channel that records the name of every call made on it, and answers
with an error. -/
def recordingChannel : RpcChannel (List String) where
  Call := fun serviceMethod _ _ reply log =>
    ((some "recorded", reply), log ++ [serviceMethod])

/-- The host side talking to a plugin over the intact channel. -/
def hostClient {σ : Type} (impl : Plugin σ) : RPCClient σ :=
  ⟨loopback ⟨impl⟩⟩

/-! ## The channel go-plugin provides: net/rpc with the gob encoding

`RPCPlugin.Client` receives a `*rpc.Client` made by go-plugin; its replies
travel in the gob encoding of the Go standard library. Both are outside the
repository. Their effect on the reply types of rpc.go is embedded here: gob
sends no struct field that holds a zero value, an empty slice included, and a
slice of length 0 decoded into a nil variable leaves it nil. -/

/-- A slice after gob encoding and decoding into a nil variable: a slice of
length 0 arrives as nil, any other slice arrives non-nil with every element
passed through `f`. -/
def gobSlice {α : Type} (f : α → α) : Slice α → Slice α
  | none => none
  | some [] => none
  | some (x :: xs) => some ((x :: xs).map f)

/-- A KeyBindingSpec after gob: three strings, unchanged. -/
def gobKeyBindingSpec (k : KeyBindingSpec) : KeyBindingSpec :=
  k

/-- A CommandSpec after gob. -/
def gobCommandSpec (c : CommandSpec) : CommandSpec :=
  { c with ArgPrompts := gobSlice id c.ArgPrompts }

/-- A MajorModeSpec after gob. -/
def gobMajorModeSpec (m : MajorModeSpec) : MajorModeSpec :=
  { m with Extensions := gobSlice id m.Extensions
           KeyBindings := gobSlice gobKeyBindingSpec m.KeyBindings }

/-- A MinorModeSpec after gob. -/
def gobMinorModeSpec (m : MinorModeSpec) : MinorModeSpec :=
  { m with KeyBindings := gobSlice gobKeyBindingSpec m.KeyBindings }

/-- What a call that reached its handler gives the caller: the error `Call`
returns and the value left in a reply variable that was zero before the call,
as it is in every RPCClient method. For a reply of type `error` the outcome
depends on whether the dynamic type of the error is registered with gob, so it
is the parameter `errorReply`. -/
def gobDeliver (errorReply : GoError → GoError × GoError) :
    (t : ReplyTy) → t.denote → GoError × t.denote
  | .string, v => (none, v)
  | .error, v => errorReply v
  | .commands, v => (none, gobSlice gobCommandSpec v)
  | .majorModes, v => (none, gobSlice gobMajorModeSpec v)
  | .minorModes, v => (none, gobSlice gobMinorModeSpec v)
  | .keyBindings, v => (none, gobSlice gobKeyBindingSpec v)

/-- The reply value net/rpc hands to a handler: a fresh zero value, and for a
slice type a fresh empty slice. -/
def serverReply : (t : ReplyTy) → t.denote
  | .string => ""
  | .error => none
  | .commands => some []
  | .majorModes => some []
  | .minorModes => some []
  | .keyBindings => some []

/-- The channel of net/rpc with gob to the server `srv`: the named call is
dispatched to the registered method; when the method returns an error, `Call`
returns it and the reply variable stays as it was; otherwise the reply is
delivered by `gobDeliver`. -/
def gobChannel {σ : Type} (srv : RPCServer σ) (errorReply : GoError → GoError × GoError) :
    RpcChannel σ where
  Call := fun serviceMethod args t reply st =>
    match RPCServer.lookup σ serviceMethod with
    | none => ((some ("rpc: method not found: " ++ serviceMethod), reply), st)
    | some h =>
      if e : h.reply = t then
        let r := h.run srv args (serverReply h.reply) st
        match r.1.1 with
        | some msg => ((some msg, reply), r.2)
        | none => (gobDeliver errorReply t (e ▸ r.1.2), r.2)
      else ((some "rpc: reply type mismatch", reply), st)

/-- Error replies when every error value in use has a dynamic type registered
with gob: they are delivered as they are. -/
def registeredErrors : GoError → GoError × GoError :=
  fun v => (none, v)

/-- The host side talking to a plugin over net/rpc with gob. -/
def gobClient {σ : Type} (impl : Plugin σ) (errorReply : GoError → GoError × GoError) :
    RPCClient σ :=
  ⟨gobChannel ⟨impl⟩ errorReply⟩

/-! ## rpc.go: PluginMap and Handshake -/

/-- The `plugin.HandshakeConfig` of go-plugin, a record of three fields. -/
structure HandshakeConfig where
  ProtocolVersion : Nat
  MagicCookieKey : String
  MagicCookieValue : String
  deriving DecidableEq, Repr

/-- A Go `map[string]plugin.Plugin` literal, as the list of its entries. -/
abbrev PluginSet (σ : Type) := List (String × RPCPlugin σ)

/-- The keys of a plugin map. -/
def PluginSet.keys {σ : Type} (m : PluginSet σ) : List String :=
  m.map Prod.fst

/-- PluginMap of rpc.go: one entry, whose RPCPlugin has no implementation. -/
def PluginMap (σ : Type) : PluginSet σ :=
  [("gmacs-plugin", { Impl := none })]

/-- Handshake of rpc.go. -/
def Handshake : HandshakeConfig :=
  { ProtocolVersion := 1
    MagicCookieKey := "GMACS_PLUGIN"
    MagicCookieValue := "gmacs-plugin-magic-cookie" }

/-- The fields of `plugin.ServeConfig` that helpers.go sets. -/
structure ServeConfig (σ : Type) where
  HandshakeConfig : HandshakeConfig
  Plugins : PluginSet σ

/-! ## helpers.go -/

/-- ServePlugin of helpers.go; `plugin.Serve` is outside the repository, so the
function is embedded as the configuration it hands to `plugin.Serve`. -/
def ServePlugin {σ : Type} (impl : Plugin σ) : ServeConfig σ :=
  let pluginMap : PluginSet σ := [("gmacs-plugin", { Impl := some impl })]
  { HandshakeConfig := Handshake
    Plugins := pluginMap }

/-- One byte of a Go string. -/
abbrev Byte := Fin 256

/-- BufferStub of helpers.go. `content` is the byte sequence of the Go string;
`cursor` is a Go `int`, on which no arithmetic is done. -/
structure BufferStub where
  name : String
  content : List Byte
  cursor : Int
  dirty : Bool
  deriving DecidableEq, Repr

/-- The zero value `BufferStub{}`. -/
def BufferStub.zero : BufferStub :=
  { name := "", content := [], cursor := 0, dirty := false }

/-- WindowStub of helpers.go; `buffer` is nil until `Buffer` or `SetBuffer` sets it. -/
structure WindowStub where
  buffer : Option BufferStub
  width : Int
  height : Int
  scrollOffset : Int
  deriving DecidableEq, Repr

/-- The zero value `WindowStub{}`. -/
def WindowStub.zero : WindowStub :=
  { buffer := none, width := 0, height := 0, scrollOffset := 0 }

/-- HostStub of helpers.go. -/
structure HostStub where
  messages : Slice String
  status : String
  deriving DecidableEq, Repr

/-- NewHostStub of helpers.go: the zero value `HostStub{}`. -/
def NewHostStub : HostStub :=
  { messages := none, status := "" }

/-- HostStub.GetCurrentBuffer of helpers.go. -/
def HostStub.GetCurrentBuffer (h : HostStub) : BufferStub × HostStub :=
  (BufferStub.zero, h)

/-- HostStub.GetCurrentWindow of helpers.go. -/
def HostStub.GetCurrentWindow (h : HostStub) : WindowStub × HostStub :=
  (WindowStub.zero, h)

/-- HostStub.SetStatus of helpers.go. -/
def HostStub.SetStatus (h : HostStub) (message : String) : HostStub :=
  { h with status := message }

/-- HostStub.ShowMessage of helpers.go. -/
def HostStub.ShowMessage (h : HostStub) (message : String) : HostStub :=
  { h with messages := Slice.append h.messages message }

/-- HostStub.ExecuteCommand of helpers.go. -/
def HostStub.ExecuteCommand (h : HostStub) (_name : String) (_args : List Iface) :
    GoError × HostStub :=
  (none, h)

/-- HostStub.SetMajorMode of helpers.go. -/
def HostStub.SetMajorMode (h : HostStub) (_bufferName _modeName : String) : GoError × HostStub :=
  (none, h)

/-- HostStub.ToggleMinorMode of helpers.go. -/
def HostStub.ToggleMinorMode (h : HostStub) (_bufferName _modeName : String) :
    GoError × HostStub :=
  (none, h)

/-- HostStub.AddHook of helpers.go; the handler is a Go function value. -/
def HostStub.AddHook (h : HostStub) (_event : String) (_handler : List Iface → GoError) :
    HostStub :=
  h

/-- HostStub.TriggerHook of helpers.go. -/
def HostStub.TriggerHook (h : HostStub) (_event : String) (_args : List Iface) : HostStub :=
  h

/-- HostStub.CreateBuffer of helpers.go. -/
def HostStub.CreateBuffer (h : HostStub) (name : String) : BufferStub × HostStub :=
  ({ BufferStub.zero with name := name }, h)

/-- HostStub.FindBuffer of helpers.go. -/
def HostStub.FindBuffer (h : HostStub) (name : String) : BufferStub × HostStub :=
  ({ BufferStub.zero with name := name }, h)

/-- HostStub.SwitchToBuffer of helpers.go. -/
def HostStub.SwitchToBuffer (h : HostStub) (_name : String) : GoError × HostStub :=
  (none, h)

/-- HostStub.OpenFile of helpers.go. -/
def HostStub.OpenFile (h : HostStub) (_path : String) : GoError × HostStub :=
  (none, h)

/-- HostStub.SaveBuffer of helpers.go. -/
def HostStub.SaveBuffer (h : HostStub) (_bufferName : String) : GoError × HostStub :=
  (none, h)

/-- HostStub.GetOption of helpers.go. -/
def HostStub.GetOption (h : HostStub) (_name : String) : (Iface × GoError) × HostStub :=
  ((Iface.nil, none), h)

/-- HostStub.SetOption of helpers.go. -/
def HostStub.SetOption (h : HostStub) (_name : String) (_value : Iface) : GoError × HostStub :=
  (none, h)

/-- HostStub.GetMessages of helpers.go. -/
def HostStub.GetMessages (h : HostStub) : Slice String :=
  h.messages

/-- HostStub.GetStatus of helpers.go. -/
def HostStub.GetStatus (h : HostStub) : String :=
  h.status

/-- One call of a HostStub method, with its arguments. -/
inductive HostOp where
  | GetCurrentBuffer
  | GetCurrentWindow
  | SetStatus (message : String)
  | ShowMessage (message : String)
  | ExecuteCommand (name : String) (args : List Iface)
  | SetMajorMode (bufferName modeName : String)
  | ToggleMinorMode (bufferName modeName : String)
  | AddHook (event : String) (handler : List Iface → GoError)
  | TriggerHook (event : String) (args : List Iface)
  | CreateBuffer (name : String)
  | FindBuffer (name : String)
  | SwitchToBuffer (name : String)
  | OpenFile (path : String)
  | SaveBuffer (bufferName : String)
  | GetOption (name : String)
  | SetOption (name : String) (value : Iface)
  | GetMessages
  | GetStatus

/-- The state of the stub after one method call. -/
def HostOp.apply (op : HostOp) (h : HostStub) : HostStub :=
  match op with
  | .GetCurrentBuffer => h.GetCurrentBuffer.2
  | .GetCurrentWindow => h.GetCurrentWindow.2
  | .SetStatus m => h.SetStatus m
  | .ShowMessage m => h.ShowMessage m
  | .ExecuteCommand n a => (h.ExecuteCommand n a).2
  | .SetMajorMode b m => (h.SetMajorMode b m).2
  | .ToggleMinorMode b m => (h.ToggleMinorMode b m).2
  | .AddHook e f => h.AddHook e f
  | .TriggerHook e a => h.TriggerHook e a
  | .CreateBuffer n => (h.CreateBuffer n).2
  | .FindBuffer n => (h.FindBuffer n).2
  | .SwitchToBuffer n => (h.SwitchToBuffer n).2
  | .OpenFile p => (h.OpenFile p).2
  | .SaveBuffer n => (h.SaveBuffer n).2
  | .GetOption n => (h.GetOption n).2
  | .SetOption n v => (h.SetOption n v).2
  | .GetMessages => h
  | .GetStatus => h

/-- The state of the stub after a sequence of method calls, first call first. -/
def HostStub.run (h : HostStub) (ops : List HostOp) : HostStub :=
  ops.foldl (fun st op => op.apply st) h

/-- The argument of a call, when the call is a `SetStatus` call. -/
def HostOp.setStatusArg : HostOp → Option String
  | .SetStatus m => some m
  | _ => none

/-- The argument of the most recent `SetStatus` call in a sequence of calls
(first call first), if there is one. -/
def lastSetStatus : List HostOp → Option String
  | [] => none
  | op :: rest =>
    match lastSetStatus rest with
    | some m => some m
    | none => op.setStatusArg

/-- Go `len` on a string. -/
def strLen (s : List Byte) : Int :=
  (s.length : Int)

/-- The slice expression `s[:hi]`; out of range it panics. -/
def sliceTo (s : List Byte) (hi : Int) : Option (List Byte) :=
  if 0 ≤ hi ∧ hi ≤ strLen s then some (s.take hi.toNat) else none

/-- The slice expression `s[lo:]`; out of range it panics. -/
def sliceFrom (s : List Byte) (lo : Int) : Option (List Byte) :=
  if 0 ≤ lo ∧ lo ≤ strLen s then some (s.drop lo.toNat) else none

/-- BufferStub.Name of helpers.go. -/
def BufferStub.Name (b : BufferStub) : String :=
  b.name

/-- BufferStub.Content of helpers.go. -/
def BufferStub.Content (b : BufferStub) : List Byte :=
  b.content

/-- BufferStub.SetContent of helpers.go. -/
def BufferStub.SetContent (b : BufferStub) (content : List Byte) : BufferStub :=
  { b with content := content, dirty := true }

/-- BufferStub.InsertAt of helpers.go; `none` is a panic. -/
def BufferStub.InsertAt (b : BufferStub) (pos : Int) (text : List Byte) : Option BufferStub :=
  if pos < 0 ∨ pos > strLen b.content then some b
  else do
    let front ← sliceTo b.content pos
    let back ← sliceFrom b.content pos
    some { b with content := front ++ text ++ back, dirty := true }

/-- BufferStub.DeleteRange of helpers.go; `none` is a panic. -/
def BufferStub.DeleteRange (b : BufferStub) (start stop : Int) : Option BufferStub :=
  if start < 0 ∨ stop > strLen b.content ∨ start > stop then some b
  else do
    let front ← sliceTo b.content start
    let back ← sliceFrom b.content stop
    some { b with content := front ++ back, dirty := true }

/-- BufferStub.CursorPosition of helpers.go. -/
def BufferStub.CursorPosition (b : BufferStub) : Int :=
  b.cursor

/-- BufferStub.IsDirty of helpers.go. -/
def BufferStub.IsDirty (b : BufferStub) : Bool :=
  b.dirty

/-! ## Sample implementations -/

/-- A plugin that keeps, in call order, the host argument of every
`Initialize` call it receives, and never fails. -/
def recordingPlugin : Plugin (List HostInterface) where
  Name := fun st => ("recorder", st)
  Version := fun st => ("0.1.0", st)
  Description := fun st => ("records the host given to Initialize", st)
  Initialize := fun _ host st => (none, st ++ [host])
  Cleanup := fun st => (none, st)
  GetCommands := fun st => (none, st)
  GetMajorModes := fun st => (none, st)
  GetMinorModes := fun st => (none, st)
  GetKeyBindings := fun st => (none, st)

/-- A plugin whose `Initialize` and `Cleanup` both return an error. -/
def failingPlugin : Plugin Unit where
  Name := fun st => ("failing", st)
  Version := fun st => ("0.1.0", st)
  Description := fun st => ("fails to start and to stop", st)
  Initialize := fun _ _ st => (some "init failed", st)
  Cleanup := fun st => (some "cleanup failed", st)
  GetCommands := fun st => (none, st)
  GetMajorModes := fun st => (none, st)
  GetMinorModes := fun st => (none, st)
  GetKeyBindings := fun st => (none, st)

/-- A plugin whose every method returns the zero value of its result type. -/
def blankPlugin : Plugin Unit where
  Name := fun st => ("", st)
  Version := fun st => ("", st)
  Description := fun st => ("", st)
  Initialize := fun _ _ st => (none, st)
  Cleanup := fun st => (none, st)
  GetCommands := fun st => (none, st)
  GetMajorModes := fun st => (none, st)
  GetMinorModes := fun st => (none, st)
  GetKeyBindings := fun st => (none, st)

/-- The word-count plugin of the spec's scenario: one command, one major mode,
one minor mode and one global key binding. -/
def wordCountPlugin : Plugin Unit where
  Name := fun st => ("word-count", st)
  Version := fun st => ("1.0.0", st)
  Description := fun st => ("counts the words of a buffer", st)
  Initialize := fun _ _ st => (none, st)
  Cleanup := fun st => (none, st)
  GetCommands := fun st =>
    (some [{ Name := "word-count-buffer", Description := "count words", Interactive := true,
             Handler := "HandleWordCount", ArgPrompts := some ["Buffer: "] }], st)
  GetMajorModes := fun st =>
    (some [{ Name := "wc-mode", Extensions := some [".txt"], Description := "word count mode",
             KeyBindings := some [{ Sequence := "C-c w", Command := "word-count-buffer",
                                    Mode := "wc-mode" }] }], st)
  GetMinorModes := fun st =>
    (some [{ Name := "wc-minor", Description := "live word count", Global := false,
             KeyBindings := none }], st)
  GetKeyBindings := fun st =>
    (some [{ Sequence := "C-c C-w", Command := "word-count-buffer", Mode := "" }], st)

/-- A plugin that answers with empty, non-nil slices: `[]CommandSpec{}`, one
major mode and one minor mode whose slice fields are empty and non-nil, and
`[]KeyBindingSpec{}`. -/
def emptySlicesPlugin : Plugin Unit where
  Name := fun st => ("empty-slices", st)
  Version := fun st => ("0.1.0", st)
  Description := fun st => ("declares nothing, with empty slices", st)
  Initialize := fun _ _ st => (none, st)
  Cleanup := fun st => (none, st)
  GetCommands := fun st => (some [], st)
  GetMajorModes := fun st =>
    (some [{ Name := "plain", Extensions := some [], Description := "",
             KeyBindings := some [] }], st)
  GetMinorModes := fun st =>
    (some [{ Name := "quiet", Description := "", Global := true, KeyBindings := some [] }], st)
  GetKeyBindings := fun st => (some [], st)

/-- A plugin whose method `M` appends the name `M` to its state. -/
def tracingPlugin : Plugin (List String) where
  Name := fun st => ("tracer", st ++ ["Name"])
  Version := fun st => ("0.1.0", st ++ ["Version"])
  Description := fun st => ("traces its own calls", st ++ ["Description"])
  Initialize := fun _ _ st => (none, st ++ ["Initialize"])
  Cleanup := fun st => (none, st ++ ["Cleanup"])
  GetCommands := fun st => (none, st ++ ["GetCommands"])
  GetMajorModes := fun st => (none, st ++ ["GetMajorModes"])
  GetMinorModes := fun st => (none, st ++ ["GetMinorModes"])
  GetKeyBindings := fun st => (none, st ++ ["GetKeyBindings"])

/-- The call names left on the recording channel after each of the nine
RPCClient methods has been called once, in source order. -/
def RPCClient.issuedNames : List String :=
  let c : RPCClient (List String) := ⟨recordingChannel⟩
  let l1 := (c.Name []).2
  let l2 := (c.Version l1).2
  let l3 := (c.Description l2).2
  let l4 := (c.Initialize Context.background none l3).2
  let l5 := (c.Cleanup l4).2
  let l6 := (c.GetCommands l5).2
  let l7 := (c.GetMajorModes l6).2
  let l8 := (c.GetMinorModes l7).2
  (c.GetKeyBindings l8).2

/-- A buffer named "scratch" holding the five bytes of "hello", cursor at 3,
not dirty. -/
def helloBuffer : BufferStub :=
  { name := "scratch", content := [104, 101, 108, 108, 111], cursor := 3, dirty := false }

/-- What the word-count scenario does to the stub host: read the current
buffer, show a message, set the status, read the status back. -/
def wordCountScenario : List HostOp :=
  [HostOp.GetCurrentBuffer, HostOp.ShowMessage "counting", HostOp.SetStatus "Words: 42",
    HostOp.GetStatus]

/-! ## Basic facts about the adapters -/

/-- The Initialize handler is the implementation's Initialize at the background
context and a nil host, with a nil handler error. -/
theorem RPCServer.Initialize_eq {σ : Type} (P : Plugin σ) (args : Args) (resp : GoError) (s : σ) :
    RPCServer.Initialize ⟨P⟩ args resp s
      = ((none, (P.Initialize Context.background none s).1),
          (P.Initialize Context.background none s).2) :=
  rfl

/-- Over the intact channel the client's Initialize returns nil whatever the
implementation returns. -/
theorem RPCClient.Initialize_loopback {σ : Type} (P : Plugin σ) (ctx : Context)
    (host : HostInterface) (s : σ) :
    (RPCClient.Initialize (hostClient P) ctx host s).1 = none :=
  rfl

/-- Over the intact channel the client's Cleanup returns nil whatever the
implementation returns. -/
theorem RPCClient.Cleanup_loopback {σ : Type} (P : Plugin σ) (s : σ) :
    (RPCClient.Cleanup (hostClient P) s).1 = none :=
  rfl

/-! ## C1: the host argument of Initialize -/

/-- C1: at the recording plugin, handling one Initialize request makes the
implementation receive a nil host, not a bound one; the same happens when the
host-side client is given the bound host reference 7 and the call travels over
the intact channel. -/
theorem RPCServer_Initialize_passes_nil_host :
    (RPCServer.Initialize ⟨recordingPlugin⟩ Args.emptyMap none []).2 = [none]
    ∧ (RPCClient.Initialize (hostClient recordingPlugin) (Context.custom 1) (some ⟨7⟩) []).2
        = [none]
    ∧ ¬ ∃ h : HostRef,
        (RPCServer.Initialize ⟨recordingPlugin⟩ Args.emptyMap none []).2 = [some h] := by
  refine ⟨rfl, rfl, ?_⟩
  rintro ⟨h, hh⟩
  have e : (RPCServer.Initialize ⟨recordingPlugin⟩ Args.emptyMap none []).2 = [none] := rfl
  rw [e] at hh
  simp at hh

/-! ## C2: errors of Initialize and Cleanup -/

/-- C2: at the failing plugin, whose Initialize and Cleanup return the errors
"init failed" and "cleanup failed", the handlers put those errors in the reply
variable, and the host-side client over the intact channel returns nil from
both operations. -/
theorem RPCClient_lifecycle_error_swallowed :
    (failingPlugin.Initialize Context.background none ()).1 = some "init failed"
    ∧ (RPCServer.Initialize ⟨failingPlugin⟩ Args.emptyMap none ()).1 = (none, some "init failed")
    ∧ (RPCClient.Initialize (hostClient failingPlugin) Context.background (some ⟨7⟩) ()).1 = none
    ∧ (failingPlugin.Cleanup ()).1 = some "cleanup failed"
    ∧ (RPCServer.Cleanup ⟨failingPlugin⟩ Args.newIface none ()).1 = (none, some "cleanup failed")
    ∧ (RPCClient.Cleanup (hostClient failingPlugin) ()).1 = none :=
  ⟨rfl, rfl, rfl, rfl, rfl, rfl⟩

/-! ## C3: declared specs through the call marshaler -/

/-- C4, as stated, fails: at the recording plugin, a second Initialize request
handled right after the first (no Cleanup between them) reports no error, in
the handler's return value and in the reply alike, and the implementation's
Initialize has then been invoked twice. -/
theorem RPCServer_second_Initialize_not_rejected :
    (RPCServer.Initialize ⟨recordingPlugin⟩ Args.emptyMap none
        (RPCServer.Initialize ⟨recordingPlugin⟩ Args.emptyMap none []).2).1 = (none, none)
    ∧ (RPCServer.Initialize ⟨recordingPlugin⟩ Args.emptyMap none
        (RPCServer.Initialize ⟨recordingPlugin⟩ Args.emptyMap none []).2).2.length = 2 :=
  ⟨rfl, rfl⟩

/-- C4, amended: RPCServer keeps no lifecycle state. For every plugin
implementation and every state of it, an Initialize request is forwarded to
the implementation's Initialize, whose result goes into the reply while the
handler itself returns nil; a second request handled in the state the first
one left is forwarded in the same way. -/
theorem RPCServer_Initialize_always_forwards {σ : Type} (P : Plugin σ) (s : σ)
    (args₁ args₂ : Args) (resp₁ resp₂ : GoError) :
    ∃ (c₁ c₂ : Context) (h₁ h₂ : HostInterface),
      RPCServer.Initialize ⟨P⟩ args₁ resp₁ s
          = ((none, (P.Initialize c₁ h₁ s).1), (P.Initialize c₁ h₁ s).2)
      ∧ RPCServer.Initialize ⟨P⟩ args₂ resp₂ (RPCServer.Initialize ⟨P⟩ args₁ resp₁ s).2
          = ((none, (P.Initialize c₂ h₂ (P.Initialize c₁ h₁ s).2).1),
              (P.Initialize c₂ h₂ (P.Initialize c₁ h₁ s).2).2) :=
  ⟨Context.background, Context.background, none, none, rfl, rfl⟩

/-! ## C5: a failed channel call, seen by the caller -/

/-- C5, as stated, fails: on the broken channel the calls return an error, over
net/rpc with gob the calls to the blank plugin and to the plugin with empty
slices return without error, and each of Name, Version, Description,
GetCommands, GetMajorModes, GetMinorModes and GetKeyBindings returns on the
broken channel the very value it returns from the blank plugin; GetCommands
and GetKeyBindings return it from the plugin with empty slices as well. -/
theorem RPCClient_failure_indistinguishable :
    ((brokenChannel.Call "Plugin.Name" Args.newIface ReplyTy.string "" 0).1.1 ≠ none
      ∧ ((gobChannel ⟨blankPlugin⟩ registeredErrors).Call "Plugin.Name" Args.newIface
            ReplyTy.string "" ()).1.1 = none
      ∧ (RPCClient.Name ⟨brokenChannel⟩ 0).1 = (RPCClient.Name (gobClient blankPlugin registeredErrors) ()).1)
    ∧ (RPCClient.Version ⟨brokenChannel⟩ 0).1 = (RPCClient.Version (gobClient blankPlugin registeredErrors) ()).1
    ∧ (RPCClient.Description ⟨brokenChannel⟩ 0).1 = (RPCClient.Description (gobClient blankPlugin registeredErrors) ()).1
    ∧ ((brokenChannel.Call "Plugin.GetCommands" Args.newIface ReplyTy.commands none 0).1.1 ≠ none
      ∧ ((gobChannel ⟨blankPlugin⟩ registeredErrors).Call "Plugin.GetCommands" Args.newIface
            ReplyTy.commands none ()).1.1 = none
      ∧ (RPCClient.GetCommands ⟨brokenChannel⟩ 0).1 = (RPCClient.GetCommands (gobClient blankPlugin registeredErrors) ()).1)
    ∧ (RPCClient.GetMajorModes ⟨brokenChannel⟩ 0).1 = (RPCClient.GetMajorModes (gobClient blankPlugin registeredErrors) ()).1
    ∧ (RPCClient.GetMinorModes ⟨brokenChannel⟩ 0).1 = (RPCClient.GetMinorModes (gobClient blankPlugin registeredErrors) ()).1
    ∧ (RPCClient.GetKeyBindings ⟨brokenChannel⟩ 0).1 = (RPCClient.GetKeyBindings (gobClient blankPlugin registeredErrors) ()).1
    ∧ (((gobChannel ⟨emptySlicesPlugin⟩ registeredErrors).Call "Plugin.GetCommands"
            Args.newIface ReplyTy.commands none ()).1.1 = none
      ∧ (RPCClient.GetCommands ⟨brokenChannel⟩ 0).1 = (RPCClient.GetCommands (gobClient emptySlicesPlugin registeredErrors) ()).1
      ∧ (RPCClient.GetKeyBindings ⟨brokenChannel⟩ 0).1 = (RPCClient.GetKeyBindings (gobClient emptySlicesPlugin registeredErrors) ()).1) := by
  refine ⟨⟨?_, rfl, rfl⟩, rfl, rfl, ⟨?_, rfl, rfl⟩, rfl, rfl, rfl, ⟨rfl, rfl, rfl⟩⟩
    <;> simp [brokenChannel]

/-- C5, amended: for each of Name, Version, Description, GetCommands,
GetMajorModes, GetMinorModes and GetKeyBindings, and for every channel: when
the underlying call of that method returns an error, the method returns the
empty string, respectively the nil slice; when the call returns no error, the
method returns the value the call left in the reply variable. So the value of
a failed call equals the value of a successful call exactly when the reply
received by the successful call is itself the empty string, respectively the
nil slice. -/
theorem RPCClient_failure_yields_zero_value {κ κ' : Type} (c : RpcChannel κ) (k : κ)
    (c' : RpcChannel κ') (k' : κ') :
    ((c.Call "Plugin.Name" Args.newIface ReplyTy.string "" k).1.1 ≠ none →
      (RPCClient.Name ⟨c⟩ k).1 = ""
      ∧ ((c'.Call "Plugin.Name" Args.newIface ReplyTy.string "" k').1.1 = none →
        (RPCClient.Name ⟨c'⟩ k').1
            = (c'.Call "Plugin.Name" Args.newIface ReplyTy.string "" k').1.2
        ∧ ((RPCClient.Name ⟨c⟩ k).1 = (RPCClient.Name ⟨c'⟩ k').1
            ↔ (c'.Call "Plugin.Name" Args.newIface ReplyTy.string "" k').1.2 = "")))
    ∧ ((c.Call "Plugin.Version" Args.newIface ReplyTy.string "" k).1.1 ≠ none →
      (RPCClient.Version ⟨c⟩ k).1 = ""
      ∧ ((c'.Call "Plugin.Version" Args.newIface ReplyTy.string "" k').1.1 = none →
        (RPCClient.Version ⟨c'⟩ k').1
            = (c'.Call "Plugin.Version" Args.newIface ReplyTy.string "" k').1.2
        ∧ ((RPCClient.Version ⟨c⟩ k).1 = (RPCClient.Version ⟨c'⟩ k').1
            ↔ (c'.Call "Plugin.Version" Args.newIface ReplyTy.string "" k').1.2 = "")))
    ∧ ((c.Call "Plugin.Description" Args.newIface ReplyTy.string "" k).1.1 ≠ none →
      (RPCClient.Description ⟨c⟩ k).1 = ""
      ∧ ((c'.Call "Plugin.Description" Args.newIface ReplyTy.string "" k').1.1 = none →
        (RPCClient.Description ⟨c'⟩ k').1
            = (c'.Call "Plugin.Description" Args.newIface ReplyTy.string "" k').1.2
        ∧ ((RPCClient.Description ⟨c⟩ k).1 = (RPCClient.Description ⟨c'⟩ k').1
            ↔ (c'.Call "Plugin.Description" Args.newIface ReplyTy.string "" k').1.2 = "")))
    ∧ ((c.Call "Plugin.GetCommands" Args.newIface ReplyTy.commands none k).1.1 ≠ none →
      (RPCClient.GetCommands ⟨c⟩ k).1 = none
      ∧ ((c'.Call "Plugin.GetCommands" Args.newIface ReplyTy.commands none k').1.1 = none →
        (RPCClient.GetCommands ⟨c'⟩ k').1
            = (c'.Call "Plugin.GetCommands" Args.newIface ReplyTy.commands none k').1.2
        ∧ ((RPCClient.GetCommands ⟨c⟩ k).1 = (RPCClient.GetCommands ⟨c'⟩ k').1
            ↔ (c'.Call "Plugin.GetCommands" Args.newIface ReplyTy.commands none k').1.2 = none)))
    ∧ ((c.Call "Plugin.GetMajorModes" Args.newIface ReplyTy.majorModes none k).1.1 ≠ none →
      (RPCClient.GetMajorModes ⟨c⟩ k).1 = none
      ∧ ((c'.Call "Plugin.GetMajorModes" Args.newIface ReplyTy.majorModes none k').1.1 = none →
        (RPCClient.GetMajorModes ⟨c'⟩ k').1
            = (c'.Call "Plugin.GetMajorModes" Args.newIface ReplyTy.majorModes none k').1.2
        ∧ ((RPCClient.GetMajorModes ⟨c⟩ k).1 = (RPCClient.GetMajorModes ⟨c'⟩ k').1
            ↔ (c'.Call "Plugin.GetMajorModes" Args.newIface ReplyTy.majorModes none k').1.2 = none)))
    ∧ ((c.Call "Plugin.GetMinorModes" Args.newIface ReplyTy.minorModes none k).1.1 ≠ none →
      (RPCClient.GetMinorModes ⟨c⟩ k).1 = none
      ∧ ((c'.Call "Plugin.GetMinorModes" Args.newIface ReplyTy.minorModes none k').1.1 = none →
        (RPCClient.GetMinorModes ⟨c'⟩ k').1
            = (c'.Call "Plugin.GetMinorModes" Args.newIface ReplyTy.minorModes none k').1.2
        ∧ ((RPCClient.GetMinorModes ⟨c⟩ k).1 = (RPCClient.GetMinorModes ⟨c'⟩ k').1
            ↔ (c'.Call "Plugin.GetMinorModes" Args.newIface ReplyTy.minorModes none k').1.2 = none)))
    ∧ ((c.Call "Plugin.GetKeyBindings" Args.newIface ReplyTy.keyBindings none k).1.1 ≠ none →
      (RPCClient.GetKeyBindings ⟨c⟩ k).1 = none
      ∧ ((c'.Call "Plugin.GetKeyBindings" Args.newIface ReplyTy.keyBindings none k').1.1 = none →
        (RPCClient.GetKeyBindings ⟨c'⟩ k').1
            = (c'.Call "Plugin.GetKeyBindings" Args.newIface ReplyTy.keyBindings none k').1.2
        ∧ ((RPCClient.GetKeyBindings ⟨c⟩ k).1 = (RPCClient.GetKeyBindings ⟨c'⟩ k').1
            ↔ (c'.Call "Plugin.GetKeyBindings" Args.newIface ReplyTy.keyBindings none k').1.2 = none))) := by
  refine ⟨?_, ?_, ?_, ?_, ?_, ?_, ?_⟩
  · intro hf
    have z : (RPCClient.Name ⟨c⟩ k).1 = "" := by simp [RPCClient.Name, ReplyTy.zero, hf]
    refine ⟨z, fun hs => ?_⟩
    have r : (RPCClient.Name ⟨c'⟩ k').1
        = (c'.Call "Plugin.Name" Args.newIface ReplyTy.string "" k').1.2 := by
      simp [RPCClient.Name, ReplyTy.zero, hs]
    refine ⟨r, ?_⟩
    rw [z, r]
    exact eq_comm
  · intro hf
    have z : (RPCClient.Version ⟨c⟩ k).1 = "" := by simp [RPCClient.Version, ReplyTy.zero, hf]
    refine ⟨z, fun hs => ?_⟩
    have r : (RPCClient.Version ⟨c'⟩ k').1
        = (c'.Call "Plugin.Version" Args.newIface ReplyTy.string "" k').1.2 := by
      simp [RPCClient.Version, ReplyTy.zero, hs]
    refine ⟨r, ?_⟩
    rw [z, r]
    exact eq_comm
  · intro hf
    have z : (RPCClient.Description ⟨c⟩ k).1 = "" := by simp [RPCClient.Description, ReplyTy.zero, hf]
    refine ⟨z, fun hs => ?_⟩
    have r : (RPCClient.Description ⟨c'⟩ k').1
        = (c'.Call "Plugin.Description" Args.newIface ReplyTy.string "" k').1.2 := by
      simp [RPCClient.Description, ReplyTy.zero, hs]
    refine ⟨r, ?_⟩
    rw [z, r]
    exact eq_comm
  · intro hf
    have z : (RPCClient.GetCommands ⟨c⟩ k).1 = none := by simp [RPCClient.GetCommands, ReplyTy.zero, hf]
    refine ⟨z, fun hs => ?_⟩
    have r : (RPCClient.GetCommands ⟨c'⟩ k').1
        = (c'.Call "Plugin.GetCommands" Args.newIface ReplyTy.commands none k').1.2 := by
      simp [RPCClient.GetCommands, ReplyTy.zero, hs]
    refine ⟨r, ?_⟩
    rw [z, r]
    exact eq_comm
  · intro hf
    have z : (RPCClient.GetMajorModes ⟨c⟩ k).1 = none := by simp [RPCClient.GetMajorModes, ReplyTy.zero, hf]
    refine ⟨z, fun hs => ?_⟩
    have r : (RPCClient.GetMajorModes ⟨c'⟩ k').1
        = (c'.Call "Plugin.GetMajorModes" Args.newIface ReplyTy.majorModes none k').1.2 := by
      simp [RPCClient.GetMajorModes, ReplyTy.zero, hs]
    refine ⟨r, ?_⟩
    rw [z, r]
    exact eq_comm
  · intro hf
    have z : (RPCClient.GetMinorModes ⟨c⟩ k).1 = none := by simp [RPCClient.GetMinorModes, ReplyTy.zero, hf]
    refine ⟨z, fun hs => ?_⟩
    have r : (RPCClient.GetMinorModes ⟨c'⟩ k').1
        = (c'.Call "Plugin.GetMinorModes" Args.newIface ReplyTy.minorModes none k').1.2 := by
      simp [RPCClient.GetMinorModes, ReplyTy.zero, hs]
    refine ⟨r, ?_⟩
    rw [z, r]
    exact eq_comm
  · intro hf
    have z : (RPCClient.GetKeyBindings ⟨c⟩ k).1 = none := by simp [RPCClient.GetKeyBindings, ReplyTy.zero, hf]
    refine ⟨z, fun hs => ?_⟩
    have r : (RPCClient.GetKeyBindings ⟨c'⟩ k').1
        = (c'.Call "Plugin.GetKeyBindings" Args.newIface ReplyTy.keyBindings none k').1.2 := by
      simp [RPCClient.GetKeyBindings, ReplyTy.zero, hs]
    refine ⟨r, ?_⟩
    rw [z, r]
    exact eq_comm

/-- C5, amended, at the broken channel and at the word-count plugin reached
over net/rpc with gob: the call of GetCommands fails on the first and
succeeds on the second, the failed GetCommands returns the nil slice, the
successful one returns the received reply, and the two values are equal
exactly when that reply is nil, which it is not. -/
theorem RPCClient_failure_yields_zero_value_witness :
    (brokenChannel.Call "Plugin.GetCommands" Args.newIface ReplyTy.commands none 0).1.1 ≠ none
    ∧ ((gobChannel ⟨wordCountPlugin⟩ registeredErrors).Call "Plugin.GetCommands" Args.newIface
          ReplyTy.commands none ()).1.1 = none
    ∧ (RPCClient.GetCommands ⟨brokenChannel⟩ 0).1 = none
    ∧ (RPCClient.GetCommands ⟨gobChannel ⟨wordCountPlugin⟩ registeredErrors⟩ ()).1
        = ((gobChannel ⟨wordCountPlugin⟩ registeredErrors).Call "Plugin.GetCommands"
            Args.newIface ReplyTy.commands none ()).1.2
    ∧ ((RPCClient.GetCommands ⟨brokenChannel⟩ 0).1
          = (RPCClient.GetCommands ⟨gobChannel ⟨wordCountPlugin⟩ registeredErrors⟩ ()).1
        ↔ ((gobChannel ⟨wordCountPlugin⟩ registeredErrors).Call "Plugin.GetCommands"
            Args.newIface ReplyTy.commands none ()).1.2 = none)
    ∧ (RPCClient.GetCommands ⟨brokenChannel⟩ 0).1
        ≠ (RPCClient.GetCommands ⟨gobChannel ⟨wordCountPlugin⟩ registeredErrors⟩ ()).1 :=
  have hf : (brokenChannel.Call "Plugin.GetCommands" Args.newIface ReplyTy.commands
      none 0).1.1 ≠ none := by
    simp [brokenChannel]
  have hs : ((gobChannel ⟨wordCountPlugin⟩ registeredErrors).Call "Plugin.GetCommands"
      Args.newIface ReplyTy.commands none ()).1.1 = none := rfl
  have h := (RPCClient_failure_yields_zero_value brokenChannel 0
    (gobChannel ⟨wordCountPlugin⟩ registeredErrors) ()).2.2.2.1 hf
  ⟨hf, hs, h.1, (h.2 hs).1, (h.2 hs).2, by decide⟩

/-! ## C6: the remote call surface -/

/-- C6: RPCServer declares exactly the nine methods Name, Version, Description,
Initialize, Cleanup, GetCommands, GetMajorModes, GetMinorModes and
GetKeyBindings; each RPCClient method M issues exactly one call, named
"Plugin." followed by M, as the recording channel shows, and on every channel
it leaves the channel in the state that one call of that name leaves it in;
the names issued by RPCClient are, as a list and as a
set, the names under which the RPCServer methods are registered; the handler
registered under a name invokes the implementation's method of that name and
no other; and for every plugin implementation the call of each name over the
intact channel returns what the implementation's method of that name returns. -/
theorem remote_call_surface :
    RPCServer.methodNames
        = ["Name", "Version", "Description", "Initialize", "Cleanup", "GetCommands",
            "GetMajorModes", "GetMinorModes", "GetKeyBindings"]
    ∧ ((RPCClient.Name ⟨recordingChannel⟩ []).2 = ["Plugin.Name"]
      ∧ (RPCClient.Version ⟨recordingChannel⟩ []).2 = ["Plugin.Version"]
      ∧ (RPCClient.Description ⟨recordingChannel⟩ []).2 = ["Plugin.Description"]
      ∧ (RPCClient.Initialize ⟨recordingChannel⟩ Context.background none []).2
          = ["Plugin.Initialize"]
      ∧ (RPCClient.Cleanup ⟨recordingChannel⟩ []).2 = ["Plugin.Cleanup"]
      ∧ (RPCClient.GetCommands ⟨recordingChannel⟩ []).2 = ["Plugin.GetCommands"]
      ∧ (RPCClient.GetMajorModes ⟨recordingChannel⟩ []).2 = ["Plugin.GetMajorModes"]
      ∧ (RPCClient.GetMinorModes ⟨recordingChannel⟩ []).2 = ["Plugin.GetMinorModes"]
      ∧ (RPCClient.GetKeyBindings ⟨recordingChannel⟩ []).2 = ["Plugin.GetKeyBindings"])
    ∧ (∀ {κ : Type} (c : RpcChannel κ) (k : κ),
      (RPCClient.Name ⟨c⟩ k).2 = (c.Call "Plugin.Name" Args.newIface ReplyTy.string "" k).2
      ∧ (RPCClient.Version ⟨c⟩ k).2
          = (c.Call "Plugin.Version" Args.newIface ReplyTy.string "" k).2
      ∧ (RPCClient.Description ⟨c⟩ k).2
          = (c.Call "Plugin.Description" Args.newIface ReplyTy.string "" k).2
      ∧ (∀ ctx host, (RPCClient.Initialize ⟨c⟩ ctx host k).2
          = (c.Call "Plugin.Initialize" Args.emptyMap ReplyTy.error none k).2)
      ∧ (RPCClient.Cleanup ⟨c⟩ k).2
          = (c.Call "Plugin.Cleanup" Args.newIface ReplyTy.error none k).2
      ∧ (RPCClient.GetCommands ⟨c⟩ k).2
          = (c.Call "Plugin.GetCommands" Args.newIface ReplyTy.commands none k).2
      ∧ (RPCClient.GetMajorModes ⟨c⟩ k).2
          = (c.Call "Plugin.GetMajorModes" Args.newIface ReplyTy.majorModes none k).2
      ∧ (RPCClient.GetMinorModes ⟨c⟩ k).2
          = (c.Call "Plugin.GetMinorModes" Args.newIface ReplyTy.minorModes none k).2
      ∧ (RPCClient.GetKeyBindings ⟨c⟩ k).2
          = (c.Call "Plugin.GetKeyBindings" Args.newIface ReplyTy.keyBindings none k).2)
    ∧ RPCClient.issuedNames = RPCServer.methodNames.map (fun m => serviceName ++ "." ++ m)
    ∧ (∀ n : String, n ∈ RPCClient.issuedNames
        ↔ ∃ m, m ∈ RPCServer.methodNames ∧ n = serviceName ++ "." ++ m)
    ∧ (∀ e, e ∈ RPCServer.methods (List String) →
        (e.2.run ⟨tracingPlugin⟩ Args.newIface (ReplyTy.zero e.2.reply) []).2 = [e.1])
    ∧ ∀ {σ : Type} (P : Plugin σ) (s : σ) (args : Args),
      (∀ r, (loopback ⟨P⟩).Call "Plugin.Name" args ReplyTy.string r s
          = ((none, (P.Name s).1), (P.Name s).2))
      ∧ (∀ r, (loopback ⟨P⟩).Call "Plugin.Version" args ReplyTy.string r s
          = ((none, (P.Version s).1), (P.Version s).2))
      ∧ (∀ r, (loopback ⟨P⟩).Call "Plugin.Description" args ReplyTy.string r s
          = ((none, (P.Description s).1), (P.Description s).2))
      ∧ (∀ r, ∃ ctx host, (loopback ⟨P⟩).Call "Plugin.Initialize" args ReplyTy.error r s
          = ((none, (P.Initialize ctx host s).1), (P.Initialize ctx host s).2))
      ∧ (∀ r, (loopback ⟨P⟩).Call "Plugin.Cleanup" args ReplyTy.error r s
          = ((none, (P.Cleanup s).1), (P.Cleanup s).2))
      ∧ (∀ r, (loopback ⟨P⟩).Call "Plugin.GetCommands" args ReplyTy.commands r s
          = ((none, (P.GetCommands s).1), (P.GetCommands s).2))
      ∧ (∀ r, (loopback ⟨P⟩).Call "Plugin.GetMajorModes" args ReplyTy.majorModes r s
          = ((none, (P.GetMajorModes s).1), (P.GetMajorModes s).2))
      ∧ (∀ r, (loopback ⟨P⟩).Call "Plugin.GetMinorModes" args ReplyTy.minorModes r s
          = ((none, (P.GetMinorModes s).1), (P.GetMinorModes s).2))
      ∧ (∀ r, (loopback ⟨P⟩).Call "Plugin.GetKeyBindings" args ReplyTy.keyBindings r s
          = ((none, (P.GetKeyBindings s).1), (P.GetKeyBindings s).2)) := by
  have hl : RPCClient.issuedNames
      = RPCServer.methodNames.map (fun m => serviceName ++ "." ++ m) := by decide
  refine ⟨rfl, ⟨rfl, rfl, rfl, rfl, rfl, rfl, rfl, rfl, rfl⟩, ?_, hl, ?_, ?_, ?_⟩
  · intro κ c k
    refine ⟨?_, ?_, ?_, fun _ _ => rfl, rfl, ?_, ?_, ?_, ?_⟩
    · simp only [RPCClient.Name, ReplyTy.zero]
      split <;> rfl
    · simp only [RPCClient.Version, ReplyTy.zero]
      split <;> rfl
    · simp only [RPCClient.Description, ReplyTy.zero]
      split <;> rfl
    · simp only [RPCClient.GetCommands, ReplyTy.zero]
      split <;> rfl
    · simp only [RPCClient.GetMajorModes, ReplyTy.zero]
      split <;> rfl
    · simp only [RPCClient.GetMinorModes, ReplyTy.zero]
      split <;> rfl
    · simp only [RPCClient.GetKeyBindings, ReplyTy.zero]
      split <;> rfl
  · intro n
    rw [hl, List.mem_map]
    constructor
    · rintro ⟨m, hm, rfl⟩
      exact ⟨m, hm, rfl⟩
    · rintro ⟨m, hm, rfl⟩
      exact ⟨m, hm, rfl⟩
  · intro e he
    simp only [RPCServer.methods, List.mem_cons, List.mem_singleton, List.not_mem_nil,
      or_false] at he
    rcases he with rfl | rfl | rfl | rfl | rfl | rfl | rfl | rfl | rfl <;> rfl
  · intro σ P s args
    exact ⟨fun _ => rfl, fun _ => rfl, fun _ => rfl,
      fun _ => ⟨Context.background, none, rfl⟩, fun _ => rfl, fun _ => rfl, fun _ => rfl,
      fun _ => rfl, fun _ => rfl⟩

/-! ## C7: handshake and dispense key -/

/-- C7: the Handshake configuration has protocol version 1 and the non-empty
magic-cookie pair "GMACS_PLUGIN" / "gmacs-plugin-magic-cookie"; for every
plugin implementation ServePlugin serves with that Handshake configuration,
under the same keys as the host-side PluginMap, namely the single key
"gmacs-plugin", and the RPCPlugin served under that key carries the given
implementation. -/
theorem ServePlugin_matches_host {σ : Type} (impl : Plugin σ) :
    Handshake.ProtocolVersion = 1
    ∧ Handshake.MagicCookieKey = "GMACS_PLUGIN"
    ∧ Handshake.MagicCookieValue = "gmacs-plugin-magic-cookie"
    ∧ Handshake.MagicCookieKey ≠ ""
    ∧ Handshake.MagicCookieValue ≠ ""
    ∧ (ServePlugin impl).HandshakeConfig = Handshake
    ∧ PluginSet.keys (ServePlugin impl).Plugins = PluginSet.keys (PluginMap σ)
    ∧ (∀ key : String, key ∈ PluginSet.keys (ServePlugin impl).Plugins
        ↔ key ∈ PluginSet.keys (PluginMap σ))
    ∧ PluginSet.keys (PluginMap σ) = ["gmacs-plugin"]
    ∧ (ServePlugin impl).Plugins = [("gmacs-plugin", { Impl := some impl })] := by
  refine ⟨rfl, rfl, rfl, by decide, by decide, rfl, rfl, fun _ => Iff.rfl, rfl, rfl⟩

/-! ## C8: the status recorded by the stub host -/

/-- One call changes the recorded status only when it is a SetStatus call, and
then to the argument of that call. -/
theorem HostOp.apply_status (op : HostOp) (h : HostStub) :
    (op.apply h).status = op.setStatusArg.getD h.status := by
  cases op <;> rfl

/-- After a sequence of calls on any stub the recorded status is the argument
of the most recent SetStatus call, or the status the stub had at the start. -/
theorem HostStub.run_status (ops : List HostOp) (h : HostStub) :
    (h.run ops).status = (lastSetStatus ops).getD h.status := by
  induction ops generalizing h with
  | nil => rfl
  | cons op rest ih =>
    have step : h.run (op :: rest) = (op.apply h).run rest := rfl
    rw [step, ih, HostOp.apply_status]
    cases hr : lastSetStatus rest with
    | none => simp [lastSetStatus, hr]
    | some m => simp [lastSetStatus, hr]

/-- C8: for every finite sequence of HostStub method calls applied to the stub
made by NewHostStub, GetStatus returns the argument of the most recent
SetStatus call of the sequence, and the empty string when there is none; when
the sequence ends with SetStatus "Words: 42" it returns "Words: 42"; and a
single call of any method other than SetStatus leaves the recorded status as
it was. -/
theorem HostStub_GetStatus_is_last_SetStatus (ops : List HostOp) :
    (NewHostStub.run ops).GetStatus = (lastSetStatus ops).getD ""
    ∧ (NewHostStub.run (ops ++ [HostOp.SetStatus "Words: 42"])).GetStatus = "Words: 42"
    ∧ (NewHostStub.run wordCountScenario).GetStatus = "Words: 42"
    ∧ ∀ (op : HostOp) (h : HostStub),
        (op.apply h).GetStatus = op.setStatusArg.getD h.GetStatus := by
  refine ⟨HostStub.run_status ops NewHostStub, ?_, rfl, HostOp.apply_status⟩
  have e : NewHostStub.run (ops ++ [HostOp.SetStatus "Words: 42"])
      = (NewHostStub.run ops).SetStatus "Words: 42" := by
    simp [HostStub.run, List.foldl_append, HostOp.apply]
  rw [e]
  rfl

/-! ## C9 and C10: edits of the stub buffer -/

/-- Inside the range `s[:hi]` does not panic. -/
theorem sliceTo_natCast (s : List Byte) (n : Nat) (h : n ≤ s.length) :
    sliceTo s (n : Int) = some (s.take n) := by
  have h' : (n : Int) ≤ (s.length : Int) := by exact_mod_cast h
  simp [sliceTo, strLen, h']

/-- Inside the range `s[lo:]` does not panic. -/
theorem sliceFrom_natCast (s : List Byte) (n : Nat) (h : n ≤ s.length) :
    sliceFrom s (n : Int) = some (s.drop n) := by
  have h' : (n : Int) ≤ (s.length : Int) := by exact_mod_cast h
  simp [sliceFrom, strLen, h']

/-- InsertAt at a position inside the content. -/
theorem BufferStub.InsertAt_natCast (b : BufferStub) (n : Nat) (text : List Byte)
    (h : n ≤ b.content.length) :
    b.InsertAt (n : Int) text
      = some { b with content := b.content.take n ++ text ++ b.content.drop n, dirty := true } := by
  have h' : ¬ ((n : Int) > (b.content.length : Int)) := by
    have : (n : Int) ≤ (b.content.length : Int) := by exact_mod_cast h
    omega
  have h0 : ¬ ((n : Int) < 0) := by omega
  simp [BufferStub.InsertAt, strLen, h', h0, sliceTo_natCast _ _ h, sliceFrom_natCast _ _ h]

/-- DeleteRange of a range inside the content. -/
theorem BufferStub.DeleteRange_natCast (b : BufferStub) (m n : Nat) (hmn : m ≤ n)
    (hn : n ≤ b.content.length) :
    b.DeleteRange (m : Int) (n : Int)
      = some { b with content := b.content.take m ++ b.content.drop n, dirty := true } := by
  have h1 : ¬ ((n : Int) > (b.content.length : Int)) := by
    have : (n : Int) ≤ (b.content.length : Int) := by exact_mod_cast hn
    omega
  have h0 : ¬ ((m : Int) < 0) := by omega
  have h2 : ¬ ((m : Int) > (n : Int)) := by
    have : (m : Int) ≤ (n : Int) := by exact_mod_cast hmn
    omega
  simp [BufferStub.DeleteRange, strLen, h1, h0, h2, sliceTo_natCast _ _ (le_trans hmn hn),
    sliceFrom_natCast _ _ hn]

/-- C9: for every BufferStub with content c, every position pos with
0 ≤ pos ≤ len(c) and every text t, InsertAt(pos, t) does not panic and yields
the content c[:pos] ++ t ++ c[pos:], of length len(c) + len(t); a following
DeleteRange(pos, pos + len(t)) does not panic and restores the content c; name
and cursor are unchanged by both and the buffer is dirty after each. -/
theorem BufferStub_insert_then_delete (b : BufferStub) (pos : Int) (t : List Byte)
    (h0 : 0 ≤ pos) (h1 : pos ≤ strLen b.content) :
    ∃ b₁ b₂ front back,
      b.InsertAt pos t = some b₁
      ∧ sliceTo b.content pos = some front
      ∧ sliceFrom b.content pos = some back
      ∧ b₁.Content = front ++ t ++ back
      ∧ strLen b₁.content = strLen b.content + strLen t
      ∧ b₁.DeleteRange pos (pos + strLen t) = some b₂
      ∧ b₂.Content = b.Content
      ∧ b₁.Name = b.Name ∧ b₂.Name = b.Name
      ∧ b₁.CursorPosition = b.CursorPosition ∧ b₂.CursorPosition = b.CursorPosition
      ∧ b₁.IsDirty = true ∧ b₂.IsDirty = true := by
  obtain ⟨n, rfl⟩ := Int.eq_ofNat_of_zero_le h0
  have hn : n ≤ b.content.length := by
    have : (n : Int) ≤ (b.content.length : Int) := h1
    exact_mod_cast this
  have hlen : (b.content.take n).length = n := List.length_take_of_le hn
  have hcast : ((n : Int) + strLen t) = ((n + t.length : Nat) : Int) := by
    simp [strLen]
  have hle : n + t.length ≤ (b.content.take n ++ t ++ b.content.drop n).length := by
    simp only [List.length_append, hlen]
    omega
  have e1 : (b.content.take n ++ t ++ b.content.drop n).take n = b.content.take n := by
    rw [List.append_assoc, List.take_append_of_le_length (le_of_eq hlen.symm),
      List.take_of_length_le (le_of_eq hlen)]
  have e2 : (b.content.take n ++ t ++ b.content.drop n).drop (n + t.length)
      = b.content.drop n := by
    have : (b.content.take n ++ t).length = n + t.length := by simp [hlen]
    rw [← this, List.drop_left]
  refine ⟨{ b with content := b.content.take n ++ t ++ b.content.drop n, dirty := true },
    { b with content := b.content, dirty := true }, b.content.take n, b.content.drop n,
    BufferStub.InsertAt_natCast b n t hn, sliceTo_natCast _ _ hn,
    sliceFrom_natCast _ _ hn, rfl, ?_, ?_, rfl, rfl, rfl, rfl, rfl, rfl, rfl⟩
  · simp only [strLen, List.length_append, hlen, List.length_drop]
    push_cast
    omega
  · rw [hcast, BufferStub.DeleteRange_natCast _ n (n + t.length) (Nat.le_add_right _ _) hle]
    simp only [e1, e2, List.take_append_drop]

/-- C9 at the buffer holding "hello", position 2 and the text "XY". -/
theorem BufferStub_insert_then_delete_witness :
    (0 : Int) ≤ 2 ∧ (2 : Int) ≤ strLen helloBuffer.content
    ∧ ∃ b₁ b₂ front back,
      helloBuffer.InsertAt 2 [88, 89] = some b₁
      ∧ sliceTo helloBuffer.content 2 = some front
      ∧ sliceFrom helloBuffer.content 2 = some back
      ∧ b₁.Content = front ++ [88, 89] ++ back
      ∧ strLen b₁.content = strLen helloBuffer.content + strLen [88, 89]
      ∧ b₁.DeleteRange 2 (2 + strLen [88, 89]) = some b₂
      ∧ b₂.Content = helloBuffer.Content
      ∧ b₁.Name = helloBuffer.Name ∧ b₂.Name = helloBuffer.Name
      ∧ b₁.CursorPosition = helloBuffer.CursorPosition ∧ b₂.CursorPosition = helloBuffer.CursorPosition
      ∧ b₁.IsDirty = true ∧ b₂.IsDirty = true :=
  ⟨by decide, by decide,
    BufferStub_insert_then_delete helloBuffer 2 [88, 89] (by decide) (by decide)⟩

/-- DeleteRange past its guard: it does not panic, and the new content is
shorter by `stop - start`. -/
theorem BufferStub.DeleteRange_in_range (b : BufferStub) (start stop : Int)
    (hg : ¬ (start < 0 ∨ stop > strLen b.content ∨ start > stop)) :
    ∃ b', b.DeleteRange start stop = some b'
      ∧ strLen b'.content = strLen b.content - (stop - start) := by
  have h0 : 0 ≤ start := by omega
  have h1 : start ≤ stop := by omega
  have h2 : stop ≤ strLen b.content := by omega
  obtain ⟨m, rfl⟩ := Int.eq_ofNat_of_zero_le h0
  obtain ⟨n, rfl⟩ := Int.eq_ofNat_of_zero_le (le_trans h0 h1)
  have hmn : m ≤ n := by exact_mod_cast h1
  have hn : n ≤ b.content.length := by
    have : (n : Int) ≤ (b.content.length : Int) := h2
    exact_mod_cast this
  refine ⟨_, BufferStub.DeleteRange_natCast b m n hmn hn, ?_⟩
  have hlen : (b.content.take m).length = m := List.length_take_of_le (le_trans hmn hn)
  simp only [strLen, List.length_append, hlen, List.length_drop]
  push_cast [Nat.cast_sub hn]
  omega

/-- C10: for every BufferStub and all integers pos, start and stop, InsertAt
and DeleteRange return without a slice out of bounds; InsertAt with pos < 0 or
pos > len(content), and DeleteRange with start < 0 or stop > len(content) or
start > stop, return the buffer with every field unchanged; and whenever
DeleteRange gets past its guard, so in particular whenever it changes the
buffer, the new content has length len(content) - (stop - start). -/
theorem BufferStub_edits_total (b : BufferStub) (pos start stop : Int) (text : List Byte) :
    (∃ b', b.InsertAt pos text = some b')
    ∧ (∃ b', b.DeleteRange start stop = some b')
    ∧ (pos < 0 ∨ pos > strLen b.content → b.InsertAt pos text = some b)
    ∧ (start < 0 ∨ stop > strLen b.content ∨ start > stop → b.DeleteRange start stop = some b)
    ∧ (¬ (start < 0 ∨ stop > strLen b.content ∨ start > stop) →
        ∀ b', b.DeleteRange start stop = some b' →
          strLen b'.content = strLen b.content - (stop - start))
    ∧ (∀ b', b.DeleteRange start stop = some b' → b' ≠ b →
          strLen b'.content = strLen b.content - (stop - start)) := by
  have hi : pos < 0 ∨ pos > strLen b.content → b.InsertAt pos text = some b := by
    intro hg
    simp [BufferStub.InsertAt, hg]
  have hd : start < 0 ∨ stop > strLen b.content ∨ start > stop →
      b.DeleteRange start stop = some b := by
    intro hg
    simp [BufferStub.DeleteRange, hg]
  have hlen : ¬ (start < 0 ∨ stop > strLen b.content ∨ start > stop) →
      ∀ b', b.DeleteRange start stop = some b' →
        strLen b'.content = strLen b.content - (stop - start) := by
    intro hg b' hb'
    obtain ⟨b'', e, hl⟩ := BufferStub.DeleteRange_in_range b start stop hg
    rw [e] at hb'
    cases hb'
    exact hl
  refine ⟨?_, ?_, hi, hd, hlen, ?_⟩
  · by_cases hg : pos < 0 ∨ pos > strLen b.content
    · exact ⟨b, hi hg⟩
    · have h0 : 0 ≤ pos := by omega
      have h1 : pos ≤ strLen b.content := by omega
      obtain ⟨n, rfl⟩ := Int.eq_ofNat_of_zero_le h0
      have hn : n ≤ b.content.length := by
        have : (n : Int) ≤ (b.content.length : Int) := h1
        exact_mod_cast this
      exact ⟨_, BufferStub.InsertAt_natCast b n text hn⟩
  · by_cases hg : start < 0 ∨ stop > strLen b.content ∨ start > stop
    · exact ⟨b, hd hg⟩
    · obtain ⟨b', e, _⟩ := BufferStub.DeleteRange_in_range b start stop hg
      exact ⟨b', e⟩
  · intro b' hb' hne
    by_cases hg : start < 0 ∨ stop > strLen b.content ∨ start > stop
    · rw [hd hg] at hb'
      cases hb'
      exact absurd rfl hne
    · exact hlen hg b' hb'

/-- C10 at the buffer holding "hello": InsertAt at -1 and at 6, and DeleteRange
of (-1, 2), (2, 6) and (3, 2), leave the buffer as it was, and DeleteRange of
(1, 3) leaves a content of 5 - (3 - 1) bytes. -/
theorem BufferStub_edits_total_witness :
    helloBuffer.InsertAt (-1) [88] = some helloBuffer
    ∧ helloBuffer.InsertAt 6 [88] = some helloBuffer
    ∧ helloBuffer.DeleteRange (-1) 2 = some helloBuffer
    ∧ helloBuffer.DeleteRange 2 6 = some helloBuffer
    ∧ helloBuffer.DeleteRange 3 2 = some helloBuffer
    ∧ (∀ b', helloBuffer.DeleteRange 1 3 = some b' →
        strLen b'.content = strLen helloBuffer.content - (3 - 1)) :=
  ⟨(BufferStub_edits_total helloBuffer (-1) 0 0 [88]).2.2.1 (by decide),
    (BufferStub_edits_total helloBuffer 6 0 0 [88]).2.2.1 (by decide),
    (BufferStub_edits_total helloBuffer 0 (-1) 2 []).2.2.2.1 (by decide),
    (BufferStub_edits_total helloBuffer 0 2 6 []).2.2.2.1 (by decide),
    (BufferStub_edits_total helloBuffer 0 3 2 []).2.2.2.1 (by decide),
    (BufferStub_edits_total helloBuffer 0 1 3 []).2.2.2.2.1 (by decide)⟩

/-- C6 at the entry of the method Name: it is in the method set of RPCServer,
and its handler makes the tracing plugin record the call of Name alone. -/
theorem remote_call_surface_witness :
    (("Name", ⟨ReplyTy.string, RPCServer.Name⟩) : String × Handler (List String))
        ∈ RPCServer.methods (List String)
    ∧ (RPCServer.Name ⟨tracingPlugin⟩ Args.newIface "" []).2 = ["Name"] :=
  ⟨by simp [RPCServer.methods],
    remote_call_surface.2.2.2.2.2.1 ("Name", ⟨ReplyTy.string, RPCServer.Name⟩)
      (by simp [RPCServer.methods])⟩

end pluginsdk
